import Mathlib

/-!
Verification of the configuration-validation models of
`aind-data-transfer-models` (files `core.py`, `trigger.py`) against their
natural-language specification.

The Python code is shallowly embedded: pydantic models become structures,
field validators and model validators become explicit functions returning
`Except PyError _`, and construction of a model is the composition of its
validators, mirroring pydantic's order (field validators in declaration
order, then `mode="after"` model validators, with the `mode="wrap"`
metadata validator around the whole job construction).

External collaborators (the platform/modality catalogs from
`aind_data_schema_models`, `build_data_name`, and the
`GatherMetadataJobSettings` schema from `aind_metadata_mapper`) are not part
of this repository; they are modelled from the specification's interface
description, and each such definition is marked `Modelled from the spec:`.

Renamings forced by the proof environment: the Python identifiers
`s3_prefix` and `prefix` appear here as `s3Prefix` and `prefix_`;
`_get_job_type` and `_parse_datetime` lose their leading underscore.
-/

namespace AindDataTransferModels

/-- PyError models the Python exception surfaced by a failing validator:
`ValueError` (pydantic validation errors included) or `AttributeError`
(raised directly by `parse_modality_string` / `parse_platform_string`, and
by calling `.split` on a `list`). -/
inductive PyError where
  | valueError (msg : String)
  | attributeError (msg : String)
  deriving DecidableEq, Repr

/-- DateTime is a naive `datetime.datetime` value: the six components the
code's two accepted input formats carry. -/
structure DateTime where
  year : Nat
  month : Nat
  day : Nat
  hour : Nat
  minute : Nat
  second : Nat
  deriving DecidableEq, Repr

/-- Modelled from the spec: the external closed modality catalog
(`aind_data_schema_models.modalities.Modality.ALL`), restricted to a
representative subset; each entry exposes a unique canonical abbreviation. -/
inductive Modality where
  | ECEPHYS
  | BEHAVIOR
  | BEHAVIOR_VIDEOS
  | POPHYS
  | SPIM
  | FMOST
  deriving DecidableEq, Repr

/-- Modelled from the spec: canonical abbreviation of each modality. -/
def Modality.abbreviation : Modality → String
  | .ECEPHYS => "ecephys"
  | .BEHAVIOR => "behavior"
  | .BEHAVIOR_VIDEOS => "behavior-videos"
  | .POPHYS => "pophys"
  | .SPIM => "SPIM"
  | .FMOST => "fMOST"

/-- Modelled from the spec: the closed list `Modality.ALL`. -/
def Modality.ALL : List Modality :=
  [.ECEPHYS, .BEHAVIOR, .BEHAVIOR_VIDEOS, .POPHYS, .SPIM, .FMOST]

/-- Modelled from the spec: `Modality.from_abbreviation` lookup. -/
def Modality.from_abbreviation (s : String) : Option Modality :=
  Modality.ALL.find? (fun m => m.abbreviation == s)

/-- Modelled from the spec: the external closed platform catalog
(`aind_data_schema_models.platforms.Platform.ALL`), restricted to a
representative subset; each entry exposes a unique canonical abbreviation. -/
inductive Platform where
  | BEHAVIOR
  | CONFOCAL
  | ECEPHYS
  | FIP
  | MULTIPLANE_OPHYS
  | SINGLE_PLANE_OPHYS
  | SMARTSPIM
  deriving DecidableEq, Repr

/-- Modelled from the spec: canonical abbreviation of each platform. -/
def Platform.abbreviation : Platform → String
  | .BEHAVIOR => "behavior"
  | .CONFOCAL => "confocal"
  | .ECEPHYS => "ecephys"
  | .FIP => "FIP"
  | .MULTIPLANE_OPHYS => "multiplane-ophys"
  | .SINGLE_PLANE_OPHYS => "single-plane-ophys"
  | .SMARTSPIM => "SmartSPIM"

/-- Modelled from the spec: the closed list `Platform.ALL`. -/
def Platform.ALL : List Platform :=
  [.BEHAVIOR, .CONFOCAL, .ECEPHYS, .FIP, .MULTIPLANE_OPHYS,
   .SINGLE_PLANE_OPHYS, .SMARTSPIM]

/-- Modelled from the spec: `Platform.from_abbreviation` lookup. -/
def Platform.from_abbreviation (s : String) : Option Platform :=
  Platform.ALL.find? (fun p => p.abbreviation == s)

/-- pyUpper models Python's `str.upper()` on ASCII text, character by
character. -/
def pyUpper (s : String) : String :=
  String.mk (s.data.map Char.toUpper)

/-- replaceDashUnderscore models `str.replace("-", "_")`: with a one-character
pattern and replacement, Python's replace is a character map. -/
def replaceDashUnderscore (s : String) : String :=
  String.mk (s.data.map (fun c => if c == '-' then '_' else c))

/-- splitOnChar splits a character list at every occurrence of `sep`,
keeping empty pieces, as Python's `str.split` with a one-character
separator does. -/
def splitOnChar (sep : Char) : List Char → List (List Char)
  | [] => [[]]
  | c :: t =>
    let r := splitOnChar sep t
    if c == sep then [] :: r
    else
      match r with
      | [] => [[c]]
      | h :: t2 => (c :: h) :: t2

/-- pySplitSemi models Python's `s.split(";")`. -/
def pySplitSemi (s : String) : List String :=
  (splitOnChar ';' s.data).map String.mk

/-- MODALITY_MAP embeds `ModalityConfigs._MODALITY_MAP` from `core.py`:
`{m().abbreviation.upper().replace("-", "_"): m().abbreviation for m in
Modality.ALL}`. -/
def MODALITY_MAP : List (String × String) :=
  Modality.ALL.map
    (fun m => (replaceDashUnderscore (pyUpper m.abbreviation), m.abbreviation))

/-- PLATFORM_MAP embeds `BasicUploadJobConfigs._PLATFORM_MAP` from `core.py`:
`{p().abbreviation.upper(): p().abbreviation for p in Platform.ALL}`.
Unlike the modality map it performs no separator replacement. -/
def PLATFORM_MAP : List (String × String) :=
  Platform.ALL.map (fun p => (pyUpper p.abbreviation, p.abbreviation))

/-- parse_modality_string embeds `ModalityConfigs.parse_modality_string`
applied to a string input: uppercase, replace `-` by `_`, look up in the
modality map, and raise `AttributeError("Unknown Modality: <input>")` when
there is no match. -/
def parse_modality_string (input_modality : String) :
    Except PyError Modality :=
  match MODALITY_MAP.lookup (replaceDashUnderscore (pyUpper input_modality)) with
  | none => .error (.attributeError ("Unknown Modality: " ++ input_modality))
  | some ab =>
    match Modality.from_abbreviation ab with
    | some m => .ok m
    | none => .error (.attributeError ("Unknown Modality: " ++ input_modality))

/-- parse_platform_string embeds `BasicUploadJobConfigs.parse_platform_string`
applied to a string input: uppercase (no separator replacement), look up in
the platform map, and raise `AttributeError("Unknown Platform: <input>")`
when there is no match. -/
def parse_platform_string (input_platform : String) :
    Except PyError Platform :=
  match PLATFORM_MAP.lookup (pyUpper input_platform) with
  | none => .error (.attributeError ("Unknown Platform: " ++ input_platform))
  | some ab =>
    match Platform.from_abbreviation ab with
    | some p => .ok p
    | none => .error (.attributeError ("Unknown Platform: " ++ input_platform))

/-- BucketType embeds the `BucketType` str-enum of `core.py`. -/
inductive BucketType where
  | PRIVATE
  | OPEN
  | SCRATCH
  deriving DecidableEq, Repr

/-- BucketType.value is the string value of the str-enum member. -/
def BucketType.value : BucketType → String
  | .PRIVATE => "private"
  | .OPEN => "open"
  | .SCRATCH => "scratch"

/-- BucketInput is the `Union[BucketType, str]` input to `map_bucket`. A
`BucketType` member is itself a `str` in Python (str-enum), which
`pyStr` reflects. -/
inductive BucketInput where
  | ofStr (s : String)
  | ofBucket (b : BucketType)
  deriving DecidableEq, Repr

/-- BucketInput.pyStr is the Python string value of the input (a plain str,
or the str-enum's value). -/
def BucketInput.pyStr : BucketInput → String
  | .ofStr s => s
  | .ofBucket b => b.value

/-- hasInfix sub l decides whether `sub` occurs contiguously inside `l`. -/
def hasInfix (sub : List Char) : List Char → Bool
  | [] => sub.isEmpty
  | c :: t => sub.isPrefixOf (c :: t) || hasInfix sub t

/-- strContains s sub models Python's `sub in s` substring test. -/
def strContains (s sub : String) : Bool :=
  hasInfix sub.data s.data

/-- map_bucket embeds `BasicUploadJobConfigs.map_bucket`: a string containing
`"open"` maps to OPEN, else a string containing `"scratch"` maps to SCRATCH,
else a canonical `BucketType` value is kept, and anything else (including a
missing value) maps to PRIVATE. Both string branches also fire for
`BucketType` members since the enum subclasses `str`. -/
def map_bucket (bucket : Option BucketInput) : BucketType :=
  match bucket with
  | some x =>
    if strContains x.pyStr BucketType.OPEN.value then .OPEN
    else if strContains x.pyStr BucketType.SCRATCH.value then .SCRATCH
    else
      match x with
      | .ofBucket b => b
      | .ofStr _ => .PRIVATE
  | none => .PRIVATE

/-- digitsVal converts a list of decimal digit characters to the number they
denote. -/
def digitsVal (l : List Char) : Nat :=
  l.foldl (fun a c => a * 10 + (c.toNat - 48)) 0

/-- matchPattern1 embeds `_DATETIME_PATTERN1 =
^\d{4}-\d{2}-\d{2}[ |T]\d{2}:\d{2}:\d{2}$` from `core.py`. The character
class `[ |T]` admits a space, a literal `|`, or `T` as the date-time
separator. On a match the six numeric components are extracted (unvalidated,
as the regex leaves them). -/
def matchPattern1 (s : String) : Option DateTime :=
  match s.data with
  | [y1, y2, y3, y4, '-', m1, m2, '-', d1, d2, sep,
     h1, h2, ':', n1, n2, ':', s1, s2] =>
    if ([y1, y2, y3, y4, m1, m2, d1, d2, h1, h2, n1, n2, s1, s2].all
          Char.isDigit)
        && (sep == ' ' || sep == '|' || sep == 'T') then
      some ⟨digitsVal [y1, y2, y3, y4], digitsVal [m1, m2],
            digitsVal [d1, d2], digitsVal [h1, h2], digitsVal [n1, n2],
            digitsVal [s1, s2]⟩
    else none
  | _ => none

/-- Mdy12 carries the components matched by `_DATETIME_PATTERN2`
(`M/D/YYYY I:MM:SS` with a trailing AM/PM marker, hour on a 12-hour clock). -/
structure Mdy12 where
  month : Nat
  day : Nat
  year : Nat
  hour12 : Nat
  minute : Nat
  second : Nat
  pm : Bool
  deriving DecidableEq, Repr

/-- matchPattern2 embeds `_DATETIME_PATTERN2 =
^\d{1,2}/\d{1,2}/\d{4} \d{1,2}:\d{2}:\d{2} [APap][Mm]$` from `core.py`.
Since `/`, `:` and the space are not digits, greedy digit spans are
equivalent to the regex's bounded repetitions. -/
def matchPattern2 (s : String) : Option Mdy12 :=
  let (moDs, r1) := s.data.span Char.isDigit
  if moDs.length < 1 || 2 < moDs.length then none else
  match r1 with
  | '/' :: rest1 =>
    let (dDs, r2) := rest1.span Char.isDigit
    if dDs.length < 1 || 2 < dDs.length then none else
    match r2 with
    | '/' :: rest2 =>
      let (yDs, r3) := rest2.span Char.isDigit
      if yDs.length ≠ 4 then none else
      match r3 with
      | ' ' :: rest3 =>
        let (hDs, r4) := rest3.span Char.isDigit
        if hDs.length < 1 || 2 < hDs.length then none else
        match r4 with
        | ':' :: rest4 =>
          let (nDs, r5) := rest4.span Char.isDigit
          if nDs.length ≠ 2 then none else
          match r5 with
          | ':' :: rest5 =>
            let (sDs, r6) := rest5.span Char.isDigit
            if sDs.length ≠ 2 then none else
            match r6 with
            | [' ', a, mk] =>
              if (a == 'A' || a == 'P' || a == 'a' || a == 'p')
                  && (mk == 'M' || mk == 'm') then
                some ⟨digitsVal moDs, digitsVal dDs, digitsVal yDs,
                      digitsVal hDs, digitsVal nDs, digitsVal sDs,
                      a == 'P' || a == 'p'⟩
              else none
            | _ => none
          | _ => none
        | _ => none
      | _ => none
    | _ => none
  | _ => none

/-- isLeapYear follows the Gregorian rule used by `datetime`. -/
def isLeapYear (y : Nat) : Bool :=
  y % 4 == 0 && (y % 100 != 0 || y % 400 == 0)

/-- daysInMonth follows `datetime`'s calendar. -/
def daysInMonth (y m : Nat) : Nat :=
  if m == 2 then (if isLeapYear y then 29 else 28)
  else if m == 4 || m == 6 || m == 9 || m == 11 then 30
  else 31

/-- datetimeCtorOk models the range validation of the `datetime.datetime`
constructor (MINYEAR 1, MAXYEAR 9999, calendar-valid day, 24-hour clock). -/
def datetimeCtorOk (d : DateTime) : Bool :=
  1 ≤ d.year && d.year ≤ 9999 && 1 ≤ d.month && d.month ≤ 12
    && 1 ≤ d.day && d.day ≤ daysInMonth d.year d.month
    && d.hour ≤ 23 && d.minute ≤ 59 && d.second ≤ 59

/-- fromisoformat models `datetime.fromisoformat` applied to a string already
matched by `_DATETIME_PATTERN1`: CPython accepts any single character as the
date-time separator and validates the component ranges. -/
def fromisoformat (d : DateTime) : Except PyError DateTime :=
  if datetimeCtorOk d then .ok d
  else .error (.valueError "Invalid isoformat string")

/-- strptimeAmPm models `datetime.strptime(s, "%m/%d/%Y %I:%M:%S %p")`
applied to a string already matched by `_DATETIME_PATTERN2`: `%m`, `%d` and
`%I` reject zero (and out-of-range) values at the match stage, `%M` rejects
minutes above 59, `%S` admits leap seconds up to 61 which the constructor
then rejects, `%p` converts the 12-hour clock, and the `datetime` constructor
validates the resulting components. -/
def strptimeAmPm (c : Mdy12) : Except PyError DateTime :=
  if !(1 ≤ c.month && c.month ≤ 12 && 1 ≤ c.day && c.day ≤ 31
        && 1 ≤ c.hour12 && c.hour12 ≤ 12 && c.minute ≤ 59 && c.second ≤ 61)
  then
    .error (.valueError
      "time data does not match format %m/%d/%Y %I:%M:%S %p")
  else
    let h := if c.pm then (if c.hour12 == 12 then 12 else c.hour12 + 12)
             else (if c.hour12 == 12 then 0 else c.hour12)
    let d : DateTime := ⟨c.year, c.month, c.day, h, c.minute, c.second⟩
    if datetimeCtorOk d then .ok d
    else .error (.valueError "day is out of range for month")

/-- parse_datetime embeds `BasicUploadJobConfigs._parse_datetime` applied to
a string input: try `_DATETIME_PATTERN1` and `fromisoformat`, then
`_DATETIME_PATTERN2` and `strptime`, else raise the format error naming both
accepted patterns. -/
def parse_datetime (s : String) : Except PyError DateTime :=
  match matchPattern1 s with
  | some raw => fromisoformat raw
  | none =>
    match matchPattern2 s with
    | some c => strptimeAmPm c
    | none =>
      .error (.valueError
        "Incorrect datetime format, should be YYYY-MM-DD HH:mm:ss or MM/DD/YYYY I:MM:SS P")

/-- isSpecIsoShape follows the spec's words for the first accepted format:
`YYYY-MM-DD HH:mm:ss` or `YYYY-MM-DDTHH:mm:ss` — the separator is a space or
`T` only. Written for comparison with the source's `matchPattern1`. -/
def isSpecIsoShape (s : String) : Bool :=
  match s.data with
  | [y1, y2, y3, y4, '-', m1, m2, '-', d1, d2, sep,
     h1, h2, ':', n1, n2, ':', s1, s2] =>
    ([y1, y2, y3, y4, m1, m2, d1, d2, h1, h2, n1, n2, s1, s2].all
        Char.isDigit)
      && (sep == ' ' || sep == 'T')
  | _ => false

/-- isSpecUsShape follows the spec's words for the second accepted format:
`M/D/YYYY H:mm:ss AM|PM` with an uppercase marker. Written for comparison
with the source's `matchPattern2`. -/
def isSpecUsShape (s : String) : Bool :=
  match matchPattern2 s with
  | some _ => " AM".data.reverse.isPrefixOf s.data.reverse || " PM".data.reverse.isPrefixOf s.data.reverse
  | none => false

/-- ValidJobType embeds the `ValidJobType` str-enum of `trigger.py`. -/
inductive ValidJobType where
  | ECEPHYS
  | ECEPHYS_OPTO
  | SINGLEPLANE_OPHYS
  | MULTIPLANE_OPHYS
  | SMARTSPIM
  | RUN_GENERIC_PIPELINE
  | REGISTER_DATA
  | TEST
  deriving DecidableEq, Repr

/-- StrOrList embeds the `Union[str, List[str]]` type of
`input_data_asset_id` and `input_data_mount`. -/
inductive StrOrList where
  | str (s : String)
  | list (l : List String)
  deriving DecidableEq, Repr

/-- PyOptStr is the runtime value of the `capsule_version` and
`results_suffix` fields of `TriggerConfigModel`. In `trigger.py` both
assignments carry a trailing comma, so the value assigned to the class
attribute is the one-element tuple `(Field(...),)`; pydantic therefore takes
that tuple itself as the field default instead of reading the `Field`. A
constructed model thus holds either a user-supplied string, an explicit
`None`, or the tuple default, which `fieldInfoTuple` represents. -/
inductive PyOptStr where
  | noneV
  | strV (s : String)
  | fieldInfoTuple
  deriving DecidableEq, Repr

/-- TriggerConfigModel embeds the field record of
`trigger.TriggerConfigModel` (the Python `prefix` field is named `prefix_`
here). A value of this type before `validate_trigger_config` is the raw
keyword input; after it, the validated model. -/
structure TriggerConfigModel where
  job_type : ValidJobType
  bucket : Option String := none
  prefix_ : Option String := none
  asset_name : Option String := none
  mount : Option String := none
  input_data_asset_id : Option StrOrList := none
  input_data_mount : Option StrOrList := none
  process_capsule_id : Option String := none
  capsule_version : PyOptStr := .fieldInfoTuple
  results_suffix : PyOptStr := .fieldInfoTuple
  input_data_asset_name : Option String := none
  aind_data_transfer_version : Option String := none
  modalities : Option (List Modality) := none
  capsule_id : Option String := none
  input_data_point : Option String := none
  deriving DecidableEq, Repr

/-- triggerStepRegistration embeds the "registration" block of
`validate_trigger_config`: with both `bucket` and `prefix` provided,
`input_data_asset_id` is rejected and `asset_name` and `mount` default to
`prefix`. -/
def triggerStepRegistration (m : TriggerConfigModel) :
    Except PyError TriggerConfigModel :=
  if m.bucket.isSome && m.prefix_.isSome then
    if m.input_data_asset_id.isSome then
      .error (.valueError
        "If bucket and prefix are provided, input_data_asset_id should not be provided.")
    else
      .ok { m with
        asset_name := if m.asset_name.isSome then m.asset_name else m.prefix_,
        mount := if m.mount.isSome then m.mount else m.prefix_ }
  else .ok m

/-- triggerStepLegacyMount is the first legacy-alias assignment of
`validate_trigger_config`: `input_data_point` fills an unset
`input_data_mount`. -/
def triggerStepLegacyMount (m : TriggerConfigModel) : TriggerConfigModel :=
  if m.input_data_point.isSome && m.input_data_mount.isNone then
    { m with input_data_mount := m.input_data_point.map StrOrList.str }
  else m

/-- triggerStepLegacyCapsule is the second legacy-alias assignment of
`validate_trigger_config`: `capsule_id` fills an unset
`process_capsule_id`. -/
def triggerStepLegacyCapsule (m : TriggerConfigModel) : TriggerConfigModel :=
  if m.capsule_id.isSome && m.process_capsule_id.isNone then
    { m with process_capsule_id := m.capsule_id }
  else m

/-- triggerStepLegacy embeds the legacy-alias block of
`validate_trigger_config`: `input_data_point` fills an unset
`input_data_mount`, then `capsule_id` fills an unset `process_capsule_id`. -/
def triggerStepLegacy (m : TriggerConfigModel) : TriggerConfigModel :=
  triggerStepLegacyCapsule (triggerStepLegacyMount m)

/-- triggerStepInputAssets embeds the input-asset block of
`validate_trigger_config`. A string `input_data_asset_id` is split on `;`;
a non-`None` `input_data_mount` is then unconditionally `.split(";")`-ed,
which on a list value raises `AttributeError` (lists have no `split`). The
id is a list at this point, so the mount must have resolved to a list of the
same length and `input_data_asset_name` must be set. -/
def triggerStepInputAssets (m : TriggerConfigModel) :
    Except PyError TriggerConfigModel :=
  match m.input_data_asset_id with
  | none => .ok m
  | some v =>
    let m1 :=
      match v with
      | .str s =>
        let ids := StrOrList.list (pySplitSemi s)
        { m with input_data_asset_id := some ids }
      | .list _ => m
    match m1.input_data_mount with
    | some (.list _) =>
      .error (.attributeError "'list' object has no attribute 'split'")
    | mnt =>
      let m2 :=
        match mnt with
        | some (.str s) =>
          let ms := StrOrList.list (pySplitSemi s)
          { m1 with input_data_mount := some ms }
        | _ => m1
      match m2.input_data_asset_id with
      | some (.list ids) =>
        match m2.input_data_mount with
        | some (.list ms) =>
          if ids.length ≠ ms.length then
            .error (.valueError
              "input_data_asset_id and input_data_mount should have the same length when multiple input data assets are attached.")
          else if m2.input_data_asset_name.isNone then
            .error (.valueError
              "input_data_asset_name is required when multiple input data assets are attached.")
          else .ok m2
        | _ =>
          .error (.valueError
            "input_data_mount should be a list if input_data_asset_id is a list.")
      | _ => .ok m2

/-- triggerStepGenericPipeline embeds the final block of
`validate_trigger_config`: job type `run_generic_pipeline` requires a
`process_capsule_id`. -/
def triggerStepGenericPipeline (m : TriggerConfigModel) :
    Except PyError TriggerConfigModel :=
  if m.job_type == .RUN_GENERIC_PIPELINE && m.process_capsule_id.isNone then
    .error (.valueError
      "process_capsule_id is required for job type run_generic_pipeline.")
  else .ok m

/-- validate_trigger_config embeds `TriggerConfigModel.validate_trigger_config`
(the `mode="after"` model validator, i.e. the semantics of constructing a
`TriggerConfigModel` from its keyword arguments). -/
def validate_trigger_config (m : TriggerConfigModel) :
    Except PyError TriggerConfigModel :=
  match triggerStepRegistration m with
  | .error e => .error e
  | .ok m1 =>
    match triggerStepInputAssets (triggerStepLegacy m1) with
    | .error e => .error e
    | .ok m2 => triggerStepGenericPipeline m2

/-- get_job_type embeds `BasicUploadJobConfigs._get_job_type`: a direct
`process_capsule_id` forces `run_generic_pipeline`; otherwise the platform
table applies. -/
def get_job_type (platform : Platform) (process_capsule_id : Option String) :
    ValidJobType :=
  if process_capsule_id.isSome then .RUN_GENERIC_PIPELINE
  else if platform == .ECEPHYS then .ECEPHYS
  else if platform == .SMARTSPIM then .SMARTSPIM
  else if platform == .SINGLE_PLANE_OPHYS then .SINGLEPLANE_OPHYS
  else if platform == .MULTIPLANE_OPHYS then .MULTIPLANE_OPHYS
  else .REGISTER_DATA

/-- freshTrigger is the keyword record of the `TriggerConfigModel(...)` call
inside `set_trigger_capsule_configs`: only `job_type`, `process_capsule_id`
and `input_data_mount` are passed; every other field keeps its declared
default. -/
def freshTrigger (jt : ValidJobType) (pcid : Option String)
    (idm : Option String) : TriggerConfigModel :=
  { job_type := jt, process_capsule_id := pcid,
    input_data_mount := idm.map StrOrList.str }

/-- EmailNotificationType embeds the `EmailNotificationType` str-enum of
`core.py`. -/
inductive EmailNotificationType where
  | BEGIN
  | END
  | FAIL
  | RETRY
  | ALL
  deriving DecidableEq, Repr

/-- ModalityInput is the `Union[str, dict, Modality]` input of the
`modality` field (the dict form, pydantic's structural input, is out of
scope of the claims and omitted). -/
inductive ModalityInput where
  | str (s : String)
  | modality (m : Modality)
  deriving DecidableEq, Repr

/-- ModalityConfigs embeds the validated `ModalityConfigs` model of
`core.py`; paths are carried as strings and the opaque slurm settings are
omitted. -/
structure ModalityConfigs where
  modality : Modality
  source : String
  compress_raw_data : Bool
  extra_configs : Option String := none
  deriving DecidableEq, Repr

/-- output_folder_name embeds the computed field of `ModalityConfigs`. -/
def ModalityConfigs.output_folder_name (m : ModalityConfigs) : String :=
  m.modality.abbreviation

/-- RawModalityConfigs is the keyword input of `ModalityConfigs(...)`. -/
structure RawModalityConfigs where
  modality : ModalityInput
  source : String
  compress_raw_data : Option Bool := none
  extra_configs : Option String := none
  deriving DecidableEq, Repr

/-- get_compress_source_default embeds the `compress_raw_data` field
validator of `ModalityConfigs`: unset defaults to true exactly for the
ecephys modality. -/
def get_compress_source_default (compress_source : Option Bool)
    (m : Modality) : Bool :=
  if compress_source.isNone && m == .ECEPHYS then true
  else
    match compress_source with
    | some b => b
    | none => false

/-- mkModalityConfigs is the construction of a `ModalityConfigs` from raw
input: the modality string is parsed, then the compression default is
filled in. -/
def mkModalityConfigs (r : RawModalityConfigs) :
    Except PyError ModalityConfigs :=
  match (match r.modality with
         | .str s => parse_modality_string s
         | .modality m => .ok m) with
  | .error e => .error e
  | .ok m =>
    .ok { modality := m, source := r.source,
          compress_raw_data := get_compress_source_default
            r.compress_raw_data m,
          extra_configs := r.extra_configs }

/-- Modelled from the spec: `SubjectSettings` of `aind_metadata_mapper`,
derived from the subject id. -/
structure SubjectSettings where
  subject_id : String
  deriving DecidableEq, Repr

/-- Modelled from the spec: `ProceduresSettings` of `aind_metadata_mapper`,
derived from the subject id. -/
structure ProceduresSettings where
  subject_id : String
  deriving DecidableEq, Repr

/-- Modelled from the spec: `RawDataDescriptionSettings` of
`aind_metadata_mapper`, derived from `{name, project_name, modality}`. -/
structure RawDataDescriptionSettings where
  name : String
  project_name : String
  modality : List Modality
  deriving DecidableEq, Repr

/-- Modelled from the spec: `GatherMetadataJobSettings` of
`aind_metadata_mapper`, restricted to the fields the merge algorithm of
`fill_in_metadata_configs` writes; `session_settings` is an opaque
pass-through blob. -/
structure GatherMetadataJobSettings where
  directory_to_write_to : Option String := none
  subject_settings : Option SubjectSettings := none
  procedures_settings : Option ProceduresSettings := none
  raw_data_description_settings : Option RawDataDescriptionSettings := none
  metadata_dir_force : Option Bool := none
  metadata_dir : Option String := none
  session_settings : Option String := none
  deriving DecidableEq, Repr

/-- UserMetadataConfigs is the user-supplied `metadata_configs` mapping, as
far as the merged fields are concerned; `session_settings` is the opaque
blob extracted separately by the wrap validator. -/
structure UserMetadataConfigs where
  directory_to_write_to : Option String := none
  subject_settings : Option SubjectSettings := none
  procedures_settings : Option ProceduresSettings := none
  raw_data_description_settings : Option RawDataDescriptionSettings := none
  metadata_dir_force : Option Bool := none
  metadata_dir : Option String := none
  session_settings : Option String := none
  deriving DecidableEq, Repr

/-- BasicUploadJobConfigs embeds the validated `BasicUploadJobConfigs`
model of `core.py` (with `use_enum_values`, `s3_bucket` holds the bucket's
string value; here the enum carrier is kept and `BucketType.value` renders
it). -/
structure BasicUploadJobConfigs where
  user_email : Option String
  email_notification_types : Option (List EmailNotificationType)
  project_name : String
  input_data_mount : Option String
  process_capsule_id : Option String
  s3_bucket : BucketType
  platform : Platform
  modalities : List ModalityConfigs
  subject_id : String
  acq_datetime : DateTime
  metadata_dir : Option String
  metadata_dir_force : Bool
  force_cloud_sync : Bool
  metadata_configs : Option GatherMetadataJobSettings
  trigger_capsule_configs : Option TriggerConfigModel
  deriving DecidableEq, Repr

/-- pad2 renders a number on two digits, zero-padded. -/
def pad2 (n : Nat) : String :=
  if n < 10 then "0" ++ toString n else toString n

/-- pad4 renders a number on four digits, zero-padded. -/
def pad4 (n : Nat) : String :=
  if n < 10 then "000" ++ toString n
  else if n < 100 then "00" ++ toString n
  else if n < 1000 then "0" ++ toString n
  else toString n

/-- Modelled from the spec: `datetime_to_name_string` of
`aind_data_schema_models.data_name_patterns`, the `%Y-%m-%d_%H-%M-%S`
rendering of a timestamp. -/
def datetime_to_name_string (d : DateTime) : String :=
  pad4 d.year ++ "-" ++ pad2 d.month ++ "-" ++ pad2 d.day ++ "_"
    ++ pad2 d.hour ++ "-" ++ pad2 d.minute ++ "-" ++ pad2 d.second

/-- Modelled from the spec: `build_data_name` of
`aind_data_schema_models.data_name_patterns`:
`"{label}_{creation_datetime:%Y-%m-%d_%H-%M-%S}"`. -/
def build_data_name (label : String) (creation_datetime : DateTime) :
    String :=
  label ++ "_" ++ datetime_to_name_string creation_datetime

/-- s3Prefix embeds the `s3_prefix` computed field of
`BasicUploadJobConfigs`: `build_data_name` applied to the label
`"{platform.abbreviation}_{subject_id}"` and the acquisition timestamp. -/
def s3Prefix (job : BasicUploadJobConfigs) : String :=
  build_data_name (job.platform.abbreviation ++ "_" ++ job.subject_id)
    job.acq_datetime

/-- PlatformInput is the `Union[str, dict, Platform]` input of the
`platform` field (the dict form omitted, as for modalities). -/
inductive PlatformInput where
  | str (s : String)
  | platform (p : Platform)
  deriving DecidableEq, Repr

/-- DatetimeInput is the input of `acq_datetime`: a string to be parsed, or
a native timestamp passed through. -/
inductive DatetimeInput where
  | str (s : String)
  | value (d : DateTime)
  deriving DecidableEq, Repr

/-- RawJobConfigs is the keyword input of `BasicUploadJobConfigs(...)`. A
user-supplied `trigger_capsule_configs` is given as its raw keyword record
(its own validator runs during field validation). -/
structure RawJobConfigs where
  user_email : Option String := none
  email_notification_types : Option (List EmailNotificationType) := none
  project_name : String
  input_data_mount : Option String := none
  process_capsule_id : Option String := none
  s3_bucket : Option BucketInput := none
  platform : PlatformInput
  modalities : List RawModalityConfigs
  subject_id : String
  acq_datetime : DatetimeInput
  metadata_dir : Option String := none
  metadata_dir_force : Bool := false
  force_cloud_sync : Bool := false
  metadata_configs : Option UserMetadataConfigs := none
  trigger_capsule_configs : Option TriggerConfigModel := none
  deriving DecidableEq, Repr

/-- validateJobFields runs the field validators of `BasicUploadJobConfigs`
(bucket mapping, platform parsing, datetime parsing, per-modality
construction, the `min_items=1` bound, and validation of a user-supplied
trigger config). `metadata_configs` stays unset: the wrap validator strips
it before handing the rest to the underlying construction. -/
def validateJobFields (raw : RawJobConfigs) :
    Except PyError BasicUploadJobConfigs :=
  match (match raw.platform with
         | .str s => parse_platform_string s
         | .platform p => .ok p) with
  | .error e => .error e
  | .ok pf =>
    match (match raw.acq_datetime with
           | .str s => parse_datetime s
           | .value d => .ok d) with
    | .error e => .error e
    | .ok dt =>
      match raw.modalities.mapM mkModalityConfigs with
      | .error e => .error e
      | .ok mods =>
        if mods.length < 1 then
          .error (.valueError "List should have at least 1 item")
        else
          match (match raw.trigger_capsule_configs with
                 | none => Except.ok Option.none
                 | some t => (validate_trigger_config t).map some) with
          | .error e => .error e
          | .ok tcc =>
            .ok { user_email := raw.user_email,
                  email_notification_types := raw.email_notification_types,
                  project_name := raw.project_name,
                  input_data_mount := raw.input_data_mount,
                  process_capsule_id := raw.process_capsule_id,
                  s3_bucket := map_bucket raw.s3_bucket,
                  platform := pf, modalities := mods,
                  subject_id := raw.subject_id, acq_datetime := dt,
                  metadata_dir := raw.metadata_dir,
                  metadata_dir_force := raw.metadata_dir_force,
                  force_cloud_sync := raw.force_cloud_sync,
                  metadata_configs := none,
                  trigger_capsule_configs := tcc }

/-- overrideTrigger is the overwrite block of `set_trigger_capsule_configs`:
`bucket`, `prefix`, `asset_name` and `modalities` come unconditionally from
the job, `mount` only when still unset on the base config. -/
def overrideTrigger (job : BasicUploadJobConfigs)
    (base : TriggerConfigModel) : TriggerConfigModel :=
  { base with
    bucket := some job.s3_bucket.value,
    prefix_ := some (s3Prefix job),
    asset_name := some (s3Prefix job),
    mount := if base.mount.isNone then some (s3Prefix job) else base.mount,
    modalities := some (job.modalities.map ModalityConfigs.modality) }

/-- set_trigger_capsule_configs embeds the `mode="after"` model validator of
`BasicUploadJobConfigs`: take a deep copy of the user-supplied trigger
config, or construct a fresh one from the inferred job type and the legacy
fields, then apply `overrideTrigger`. -/
def set_trigger_capsule_configs (job : BasicUploadJobConfigs) :
    Except PyError BasicUploadJobConfigs :=
  match (match job.trigger_capsule_configs with
         | none =>
           validate_trigger_config
             (freshTrigger (get_job_type job.platform job.process_capsule_id)
               job.process_capsule_id job.input_data_mount)
         | some t => .ok t) with
  | .error e => .error e
  | .ok base =>
    .ok { job with trigger_capsule_configs := some (overrideTrigger job base) }

/-- fill_in_metadata_configs embeds the metadata-merge step of the
`mode="wrap"` validator of `BasicUploadJobConfigs`: the user-supplied
mapping is the base, `dict.update` overwrites the five derived keys with
the computed defaults, the session blob is re-attached (relaxed or full
validation both keep the user's value), and finally `metadata_dir` is set
from the job. -/
def fill_in_metadata_configs (job : BasicUploadJobConfigs)
    (user : Option UserMetadataConfigs) : GatherMetadataJobSettings :=
  let u := user.getD {}
  { directory_to_write_to := some "stage",
    subject_settings := some { subject_id := job.subject_id },
    procedures_settings := some { subject_id := job.subject_id },
    raw_data_description_settings := some
      { name := s3Prefix job, project_name := job.project_name,
        modality := job.modalities.map ModalityConfigs.modality },
    metadata_dir_force := some job.metadata_dir_force,
    session_settings := u.session_settings,
    metadata_dir := job.metadata_dir }

/-- mkBasicUploadJobConfigs is the construction of a `BasicUploadJobConfigs`
from raw input: the wrap validator strips `metadata_configs`, the handler
runs field validation and `set_trigger_capsule_configs`, and the metadata
merge fills `metadata_configs` on the validated object. -/
def mkBasicUploadJobConfigs (raw : RawJobConfigs) :
    Except PyError BasicUploadJobConfigs :=
  match validateJobFields raw with
  | .error e => .error e
  | .ok job0 =>
    match set_trigger_capsule_configs job0 with
    | .error e => .error e
    | .ok job1 =>
      let mc := fill_in_metadata_configs job1 raw.metadata_configs
      .ok { job1 with metadata_configs := some mc }

/-- SubmitJobRequest embeds the batch request of `core.py`. -/
structure SubmitJobRequest where
  user_email : Option String
  email_notification_types : List EmailNotificationType
  upload_jobs : List BasicUploadJobConfigs
  deriving DecidableEq, Repr

/-- defaultEmailNotificationTypes is the batch default `{fail}`. -/
def defaultEmailNotificationTypes : List EmailNotificationType := [.FAIL]

/-- propagateJob is the loop body of `propagate_email_settings` for one
job: a job with no `user_email` inherits the batch's when the batch has
one; a job with no `email_notification_types` inherits the batch's set
unconditionally. -/
def propagateJob (ue : Option String) (ent : List EmailNotificationType)
    (j : BasicUploadJobConfigs) : BasicUploadJobConfigs :=
  let j1 := if ue.isSome && j.user_email.isNone then
      { j with user_email := ue }
    else j
  if j1.email_notification_types.isNone then
    { j1 with email_notification_types := some ent }
  else j1

/-- propagate_email_settings embeds the `mode="after"` model validator of
`SubmitJobRequest`: the loop over `upload_jobs` applying `propagateJob`. -/
def propagate_email_settings (r : SubmitJobRequest) : SubmitJobRequest :=
  { r with upload_jobs := r.upload_jobs.map (propagateJob r.user_email r.email_notification_types) }

/-- mkSubmitJobRequest is the construction of a `SubmitJobRequest` from its
fields (`upload_jobs` given as already-validated jobs): the `[1, 1000]`
cardinality bound, then email propagation. -/
def mkSubmitJobRequest (user_email : Option String)
    (email_notification_types : List EmailNotificationType)
    (upload_jobs : List BasicUploadJobConfigs) :
    Except PyError SubmitJobRequest :=
  if upload_jobs.length < 1 then
    .error (.valueError "List should have at least 1 item")
  else if 1000 < upload_jobs.length then
    .error (.valueError "List should have at most 1000 items")
  else
    .ok (propagate_email_settings
      { user_email := user_email,
        email_notification_types := email_notification_types,
        upload_jobs := upload_jobs })

/-- idList is the list an `input_data_asset_id` value resolves to: a string
is split on `;`, a list stays as it is. -/
def idList : StrOrList → List String
  | .str s => pySplitSemi s
  | .list l => l

/-- inputAssetsOk states, in the spec's terms, when the input-asset block
accepts a model (after the legacy aliases have been resolved): the mount
must be a string whose `;`-split has the same length as the resolved id
list, and an asset name must be present. Written for comparison with
`triggerStepInputAssets`. -/
def inputAssetsOk (m : TriggerConfigModel) (v : StrOrList) : Bool :=
  match m.input_data_mount with
  | some (.str s) =>
    ((pySplitSemi s).length == (idList v).length)
      && m.input_data_asset_name.isSome
  | _ => false

/-- rawC1 is the spec's end-to-end scenario: platform BEHAVIOR, subject
123456, acquisition 2020-10-13 13:10:10, one behavior-videos modality. -/
def rawC1 : RawJobConfigs :=
  { project_name := "Behavior Platform",
    platform := .str "BEHAVIOR",
    modalities := [{ modality := .str "behavior-videos",
                     source := "dir/data_set_2" }],
    subject_id := "123456",
    acq_datetime := .str "2020-10-13 13:10:10" }

/-- metaC1 is the metadata bundle `rawC1`'s construction computes. -/
def metaC1 : GatherMetadataJobSettings :=
  { directory_to_write_to := some "stage",
    subject_settings := some { subject_id := "123456" },
    procedures_settings := some { subject_id := "123456" },
    raw_data_description_settings := some
      { name := "behavior_123456_2020-10-13_13-10-10",
        project_name := "Behavior Platform",
        modality := [.BEHAVIOR_VIDEOS] },
    metadata_dir_force := some false,
    metadata_dir := none,
    session_settings := none }

/-- jobC1 is the job `rawC1` constructs. -/
def jobC1 : BasicUploadJobConfigs :=
  { user_email := none, email_notification_types := none,
    project_name := "Behavior Platform",
    input_data_mount := none, process_capsule_id := none,
    s3_bucket := .PRIVATE, platform := .BEHAVIOR,
    modalities := [{ modality := .BEHAVIOR_VIDEOS,
                     source := "dir/data_set_2",
                     compress_raw_data := false, extra_configs := none }],
    subject_id := "123456",
    acq_datetime := { year := 2020, month := 10, day := 13,
                      hour := 13, minute := 10, second := 10 },
    metadata_dir := none, metadata_dir_force := false,
    force_cloud_sync := false,
    metadata_configs := some metaC1,
    trigger_capsule_configs := some
      { job_type := .REGISTER_DATA,
        bucket := some "private",
        prefix_ := some "behavior_123456_2020-10-13_13-10-10",
        asset_name := some "behavior_123456_2020-10-13_13-10-10",
        mount := some "behavior_123456_2020-10-13_13-10-10",
        input_data_asset_id := none, input_data_mount := none,
        process_capsule_id := none,
        capsule_version := .fieldInfoTuple,
        results_suffix := .fieldInfoTuple,
        input_data_asset_name := none,
        aind_data_transfer_version := none,
        modalities := some [.BEHAVIOR_VIDEOS],
        capsule_id := none, input_data_point := none } }

/-- rawC2 supplies a user trigger config carrying its own mount. -/
def rawC2 : RawJobConfigs :=
  { project_name := "Behavior Platform",
    platform := .str "BEHAVIOR",
    modalities := [{ modality := .str "behavior-videos",
                     source := "dir/data_set_2" }],
    subject_id := "123456",
    acq_datetime := .str "2020-10-13 13:10:10",
    trigger_capsule_configs := some
      { job_type := .TEST, mount := some "custom_mount" } }

/-- triggerC2 is the trigger config `rawC2`'s construction computes. -/
def triggerC2 : TriggerConfigModel :=
  { job_type := .TEST,
    bucket := some "private",
    prefix_ := some "behavior_123456_2020-10-13_13-10-10",
    asset_name := some "behavior_123456_2020-10-13_13-10-10",
    mount := some "custom_mount",
    input_data_asset_id := none, input_data_mount := none,
    process_capsule_id := none,
    capsule_version := .fieldInfoTuple,
    results_suffix := .fieldInfoTuple,
    input_data_asset_name := none,
    aind_data_transfer_version := none,
    modalities := some [.BEHAVIOR_VIDEOS],
    capsule_id := none, input_data_point := none }

/-- jobC2 is the job `rawC2` constructs: the user's mount survives, the
other trigger locators are overwritten from the job. -/
def jobC2 : BasicUploadJobConfigs :=
  { jobC1 with trigger_capsule_configs := some triggerC2 }

/-- rawC3 pairs platform ECEPHYS with a user trigger config whose job type
is `test` and no `process_capsule_id` anywhere. -/
def rawC3 : RawJobConfigs :=
  { project_name := "Ephys Project",
    platform := .platform .ECEPHYS,
    modalities := [{ modality := .modality .ECEPHYS, source := "dir/e" }],
    subject_id := "654321",
    acq_datetime := .value { year := 2020, month := 10, day := 13,
                             hour := 13, minute := 10, second := 10 },
    trigger_capsule_configs := some { job_type := .TEST } }

/-- userMetaC4 supplies values for the derived metadata keys that conflict
with the computed defaults, plus an opaque session blob. -/
def userMetaC4 : UserMetadataConfigs :=
  { directory_to_write_to := some "elsewhere",
    subject_settings := some { subject_id := "999999" },
    metadata_dir_force := some true,
    session_settings := some "opaque-session-blob" }

/-- rawC4 is `rawC1` with the conflicting user metadata attached. -/
def rawC4 : RawJobConfigs :=
  { project_name := "Behavior Platform",
    platform := .str "BEHAVIOR",
    modalities := [{ modality := .str "behavior-videos",
                     source := "dir/data_set_2" }],
    subject_id := "123456",
    acq_datetime := .str "2020-10-13 13:10:10",
    metadata_configs := some userMetaC4 }

/-- metaC4 is the metadata bundle `rawC4`'s construction computes. -/
def metaC4 : GatherMetadataJobSettings :=
  { metaC1 with session_settings := some "opaque-session-blob" }

/-- jobC4 is the job `rawC4` constructs: the defaults overwrote every
conflicting user key and only the session blob survives. -/
def jobC4 : BasicUploadJobConfigs :=
  { jobC1 with metadata_configs := some metaC4 }

/-- tC5ok is the claim's multi-asset example: semicolon-delimited id and
mount strings plus an asset name. -/
def tC5ok : TriggerConfigModel :=
  { job_type := .ECEPHYS,
    input_data_asset_id := some (.str "a;b"),
    input_data_mount := some (.str "m1;m2"),
    input_data_asset_name := some "x" }

/-- tC5lists is the claim's list form: both fields supplied directly as
equal-length lists, with an asset name. -/
def tC5lists : TriggerConfigModel :=
  { job_type := .ECEPHYS,
    input_data_asset_id := some (.list ["a", "b"]),
    input_data_mount := some (.list ["m1", "m2"]),
    input_data_asset_name := some "x" }

/-- tC10 is a trigger config constructed with `job_type` only, leaving
`results_suffix` to its default. -/
def tC10 : TriggerConfigModel := { job_type := .REGISTER_DATA }

/-- jobC9 is a minimal job with no email settings of its own. -/
def jobC9 : BasicUploadJobConfigs :=
  { user_email := none, email_notification_types := none,
    project_name := "P", input_data_mount := none,
    process_capsule_id := none, s3_bucket := .PRIVATE,
    platform := .BEHAVIOR, modalities := [], subject_id := "1",
    acq_datetime := { year := 2020, month := 1, day := 1,
                      hour := 0, minute := 0, second := 0 },
    metadata_dir := none, metadata_dir_force := false,
    force_cloud_sync := false, metadata_configs := none,
    trigger_capsule_configs := none }

/-- reqC9 is the batch built from `jobC9` with a batch-level email. -/
def reqC9 : SubmitJobRequest :=
  propagate_email_settings
    { user_email := some "a@x.com",
      email_notification_types := defaultEmailNotificationTypes,
      upload_jobs := [jobC9] }

/-! Helper lemmas about the trigger validator's steps. -/

theorem lem_legacy_id (m : TriggerConfigModel) :
    (triggerStepLegacy m).input_data_asset_id = m.input_data_asset_id := by
  unfold triggerStepLegacy triggerStepLegacyCapsule triggerStepLegacyMount
  split <;> split <;> rfl

theorem lem_legacy_job_type (m : TriggerConfigModel) :
    (triggerStepLegacy m).job_type = m.job_type := by
  unfold triggerStepLegacy triggerStepLegacyCapsule triggerStepLegacyMount
  split <;> split <;> rfl

theorem lem_registration_skip (m : TriggerConfigModel)
    (h : m.bucket = none ∨ m.prefix_ = none) :
    triggerStepRegistration m = .ok m := by
  unfold triggerStepRegistration
  rcases h with h | h <;> simp [h]

theorem lem_beq_len_comm (a b : List String)
    (h : ¬a.length = b.length) : (b.length == a.length) = false :=
  beq_eq_false_iff_ne.mpr (fun e => h e.symm)

theorem lem_inputAssets_isOk (m : TriggerConfigModel) (v : StrOrList)
    (hid : m.input_data_asset_id = some v) :
    (triggerStepInputAssets m).isOk = inputAssetsOk m v := by
  have hsplit : ∀ (ids : List String) (s2 : String)
      (hname : Option String),
      ((if ids.length ≠ (pySplitSemi s2).length then
          (Except.error (PyError.valueError
            "input_data_asset_id and input_data_mount should have the same length when multiple input data assets are attached.") :
            Except PyError TriggerConfigModel)
        else if hname.isNone then
          Except.error (PyError.valueError
            "input_data_asset_name is required when multiple input data assets are attached.")
        else Except.ok { m with
          input_data_asset_id := some (.list ids),
          input_data_mount := some (.list (pySplitSemi s2)) }).isOk) =
        (((pySplitSemi s2).length == ids.length) && hname.isSome) := by
    intro ids s2 hname
    by_cases hlen : ids.length = (pySplitSemi s2).length
    · cases hname with
      | none => simp [hlen, Except.isOk, Except.toBool]
      | some nm => simp [hlen, Except.isOk, Except.toBool]
    · simp [hlen, lem_beq_len_comm _ _ hlen, Except.isOk, Except.toBool]
  unfold triggerStepInputAssets inputAssetsOk
  rw [hid]
  cases v with
  | str s =>
    cases hmnt : m.input_data_mount with
    | none => simp [hmnt, Except.isOk, Except.toBool]
    | some sl =>
      cases sl with
      | str s2 =>
        simpa [hmnt, idList] using
          hsplit (pySplitSemi s) s2 m.input_data_asset_name
      | list l => simp [hmnt, Except.isOk, Except.toBool]
  | list l =>
    cases hmnt : m.input_data_mount with
    | none => simp [hmnt, hid, Except.isOk, Except.toBool]
    | some sl =>
      cases sl with
      | str s2 =>
        simpa [hmnt, hid, idList] using hsplit l s2 m.input_data_asset_name
      | list l2 => simp [hmnt, Except.isOk, Except.toBool]

theorem lem_inputAssets_preserves (m m2 : TriggerConfigModel)
    (h : triggerStepInputAssets m = .ok m2) :
    m2.job_type = m.job_type ∧ m2.process_capsule_id = m.process_capsule_id := by
  unfold triggerStepInputAssets at h
  cases hid : m.input_data_asset_id with
  | none =>
    rw [hid] at h
    injection h with h2
    subst h2
    exact ⟨rfl, rfl⟩
  | some v =>
    rw [hid] at h
    cases v with
    | str s =>
      cases hmnt : m.input_data_mount with
      | none => simp [hmnt] at h
      | some sl =>
        cases sl with
        | str s2 =>
          simp only [hmnt] at h
          by_cases hlen :
              (pySplitSemi s).length = (pySplitSemi s2).length
          · rw [if_neg (by simpa using hlen)] at h
            cases hname : m.input_data_asset_name with
            | none => simp [hname] at h
            | some nm =>
              rw [if_neg (by simp [hname])] at h
              injection h with h2
              subst h2
              exact ⟨rfl, rfl⟩
          · rw [if_pos (by simpa using hlen)] at h
            cases h
        | list l2 => simp [hmnt] at h
    | list l =>
      cases hmnt : m.input_data_mount with
      | none => simp [hmnt, hid] at h
      | some sl =>
        cases sl with
        | str s2 =>
          simp only [hmnt, hid] at h
          by_cases hlen : l.length = (pySplitSemi s2).length
          · rw [if_neg (by simpa using hlen)] at h
            cases hname : m.input_data_asset_name with
            | none => simp [hname] at h
            | some nm =>
              rw [if_neg (by simp [hname])] at h
              injection h with h2
              subst h2
              exact ⟨rfl, rfl⟩
          · rw [if_pos (by simpa using hlen)] at h
            cases h
        | list l2 => simp [hmnt] at h

/-- Claim C5 (corrected): for a `TriggerConfigModel` constructed with
`input_data_asset_id` provided (and the registration and generic-pipeline
checks not in play), construction succeeds exactly when `input_data_mount`
(after legacy-alias resolution) is a string whose `;`-split has the same
length as the resolved id list and `input_data_asset_name` is set — the
name is required for any number of input assets, and a mount supplied
directly as a list always fails (the code calls `.split` on it). -/
theorem c5_input_assets_validation_amended (t : TriggerConfigModel)
    (v : StrOrList)
    (hid : t.input_data_asset_id = some v)
    (hreg : t.bucket = none ∨ t.prefix_ = none)
    (hrgp : t.job_type = .RUN_GENERIC_PIPELINE →
      (triggerStepLegacy t).process_capsule_id ≠ none) :
    (validate_trigger_config t).isOk
      = inputAssetsOk (triggerStepLegacy t) v := by
  have hidL : (triggerStepLegacy t).input_data_asset_id = some v := by
    rw [lem_legacy_id]; exact hid
  have hiso := lem_inputAssets_isOk (triggerStepLegacy t) v hidL
  unfold validate_trigger_config
  rw [lem_registration_skip t hreg]
  dsimp only
  cases hia : triggerStepInputAssets (triggerStepLegacy t) with
  | error e =>
    rw [hia] at hiso
    simpa using hiso
  | ok m2 =>
    rw [hia] at hiso
    have hpres := lem_inputAssets_preserves _ _ hia
    have hok : triggerStepGenericPipeline m2 = .ok m2 := by
      unfold triggerStepGenericPipeline
      rw [if_neg ?hc]
      case hc =>
        intro hcond
        have hjt : m2.job_type = .RUN_GENERIC_PIPELINE := by
          have := (Bool.and_eq_true _ _).mp hcond |>.1
          exact beq_iff_eq.mp this
        have hpc : m2.process_capsule_id = none := by
          have := (Bool.and_eq_true _ _).mp hcond |>.2
          exact Option.isNone_iff_eq_none.mp this
        have hLjt : t.job_type = .RUN_GENERIC_PIPELINE := by
          rw [← lem_legacy_job_type t, ← hpres.1]; exact hjt
        exact hrgp hLjt (by rw [← hpres.2]; exact hpc)
    dsimp only
    rw [hok]
    simpa using hiso

/-- Claim C5 witness: the semicolon-delimited example succeeds and splits
into two-element lists. -/
theorem c5_input_assets_validation_amended_witness :
    tC5ok.input_data_asset_id = some (StrOrList.str "a;b") ∧
    ((validate_trigger_config tC5ok).isOk
      = inputAssetsOk (triggerStepLegacy tC5ok) (StrOrList.str "a;b")) ∧
    (validate_trigger_config tC5ok).isOk = true ∧
    Except.map (fun m => (m.input_data_asset_id, m.input_data_mount))
        (validate_trigger_config tC5ok)
      = .ok (some (.list ["a", "b"]), some (.list ["m1", "m2"])) :=
  ⟨rfl,
   c5_input_assets_validation_amended tC5ok (StrOrList.str "a;b") rfl
     (Or.inl rfl) (fun h => absurd h (by decide)),
   rfl, rfl⟩

/-- Claim C5 counterexample: supplying both fields directly as equal-length
lists with a name fails with an `AttributeError` (the claim says it
succeeds). -/
theorem c5_list_mount_counterexample :
    tC5lists.input_data_asset_id = some (.list ["a", "b"]) ∧
    tC5lists.input_data_mount = some (.list ["m1", "m2"]) ∧
    tC5lists.input_data_asset_name = some "x" ∧
    validate_trigger_config tC5lists
      = .error (.attributeError "'list' object has no attribute 'split'") :=
  ⟨rfl, rfl, rfl, rfl⟩

/-- Claim C6 (corrected): `acq_datetime` string parsing accepts exactly the
shapes of the code's two regexes — `YYYY-MM-DD HH:mm:ss` with separator
space, `|` or `T` (the class `[ |T]` admits the literal bar and
`fromisoformat` accepts any single separator), or `M/D/YYYY H:mm:ss` with a
case-insensitive AM/PM marker; a string matching neither shape fails with
the error naming both accepted patterns; the claim's examples parse to the
same timestamp and `2020/10/13T13:10:10` fails with the format error. -/
theorem c6_datetime_parsing_amended :
    (∀ s : String, matchPattern1 s = none → matchPattern2 s = none →
      parse_datetime s = .error (.valueError
        "Incorrect datetime format, should be YYYY-MM-DD HH:mm:ss or MM/DD/YYYY I:MM:SS P")) ∧
    (∀ (s : String) (d : DateTime), parse_datetime s = .ok d →
      matchPattern1 s ≠ none ∨ matchPattern2 s ≠ none) ∧
    parse_datetime "2020-10-13T13:10:10" = .ok ⟨2020, 10, 13, 13, 10, 10⟩ ∧
    parse_datetime "2020-10-13 13:10:10" = .ok ⟨2020, 10, 13, 13, 10, 10⟩ ∧
    parse_datetime "10/13/2020 1:10:10 PM" = .ok ⟨2020, 10, 13, 13, 10, 10⟩ ∧
    parse_datetime "10/13/2020 1:10:10 pm" = .ok ⟨2020, 10, 13, 13, 10, 10⟩ ∧
    parse_datetime "2020-10-13|13:10:10" = .ok ⟨2020, 10, 13, 13, 10, 10⟩ ∧
    parse_datetime "2020/10/13T13:10:10" = .error (.valueError
      "Incorrect datetime format, should be YYYY-MM-DD HH:mm:ss or MM/DD/YYYY I:MM:SS P") := by
  refine ⟨?_, ?_, rfl, rfl, rfl, rfl, rfl, rfl⟩
  · intro s h1 h2
    unfold parse_datetime
    rw [h1, h2]
  · intro s d h
    cases hm1 : matchPattern1 s with
    | some r => exact Or.inl (by simp [hm1])
    | none =>
      cases hm2 : matchPattern2 s with
      | some c => exact Or.inr (by simp [hm2])
      | none =>
        unfold parse_datetime at h
        rw [hm1, hm2] at h
        cases h

/-- Claim C6 counterexample: `2020-10-13|13:10:10` is in neither of the two
formats the claim allows, yet it parses successfully. -/
theorem c6_pipe_separator_counterexample :
    parse_datetime "2020-10-13|13:10:10" = .ok ⟨2020, 10, 13, 13, 10, 10⟩ ∧
    isSpecIsoShape "2020-10-13|13:10:10" = false ∧
    isSpecUsShape "2020-10-13|13:10:10" = false :=
  ⟨rfl, rfl, rfl⟩

theorem lem_lookup_none {β : Type} (k : String) :
    ∀ l : List (String × β), (∀ q ∈ l, ¬k = q.1) → List.lookup k l = none := by
  intro l
  induction l with
  | nil => intro _; rfl
  | cons a t ih =>
    intro h
    obtain ⟨k1, v1⟩ := a
    have hb : (k == k1) = false :=
      beq_eq_false_iff_ne.mpr (h (k1, v1) (List.mem_cons_self _ _))
    simp only [List.lookup, hb]
    exact ih fun q hq => h q (List.mem_cons_of_mem _ hq)

/-- Claim C7 (corrected): modality lookup is case-insensitive with `-` and
`_` interchangeable (both the map keys and the probe are uppercased with
`-` mapped to `_`), but platform lookup only uppercases — separators are
not normalized, so an underscore variant of a hyphenated platform
abbreviation does not resolve; unmatched strings fail with the distinct
`AttributeError` "Unknown Modality/Platform: <raw input>". -/
theorem c7_enum_lookup_amended :
    (∀ (s : String) (m : Modality), m ∈ Modality.ALL →
      replaceDashUnderscore (pyUpper s)
        = replaceDashUnderscore (pyUpper m.abbreviation) →
      parse_modality_string s = .ok m) ∧
    (∀ s : String,
      (∀ m ∈ Modality.ALL,
        ¬replaceDashUnderscore (pyUpper s)
          = replaceDashUnderscore (pyUpper m.abbreviation)) →
      parse_modality_string s
        = .error (.attributeError ("Unknown Modality: " ++ s))) ∧
    (∀ (s : String) (p : Platform), p ∈ Platform.ALL →
      pyUpper s = pyUpper p.abbreviation →
      parse_platform_string s = .ok p) ∧
    (∀ s : String,
      (∀ p ∈ Platform.ALL, ¬pyUpper s = pyUpper p.abbreviation) →
      parse_platform_string s
        = .error (.attributeError ("Unknown Platform: " ++ s))) ∧
    parse_modality_string "Behavior_Videos" = .ok .BEHAVIOR_VIDEOS ∧
    parse_platform_string "smartspim" = .ok .SMARTSPIM := by
  refine ⟨?_, ?_, ?_, ?_, rfl, rfl⟩
  · intro s m hm hk
    fin_cases hm <;> (unfold parse_modality_string; rw [hk]; rfl)
  · intro s h
    have hnone : List.lookup (replaceDashUnderscore (pyUpper s))
        MODALITY_MAP = none := by
      apply lem_lookup_none
      intro q hq
      unfold MODALITY_MAP at hq
      obtain ⟨m, hm, rfl⟩ := List.mem_map.mp hq
      exact h m hm
    unfold parse_modality_string
    rw [hnone]
  · intro s p hp hk
    fin_cases hp <;> (unfold parse_platform_string; rw [hk]; rfl)
  · intro s h
    have hnone : List.lookup (pyUpper s) PLATFORM_MAP = none := by
      apply lem_lookup_none
      intro q hq
      unfold PLATFORM_MAP at hq
      obtain ⟨p, hp, rfl⟩ := List.mem_map.mp hq
      exact h p hp
    unfold parse_platform_string
    rw [hnone]

/-- Claim C7 counterexample: the hyphenated platform abbreviation resolves
but its underscore variant fails (separators are not interchangeable for
platforms), while the underscore variant of a hyphenated modality does
resolve. -/
theorem c7_platform_separator_counterexample :
    parse_platform_string "single-plane-ophys" = .ok .SINGLE_PLANE_OPHYS ∧
    parse_platform_string "single_plane_ophys"
      = .error (.attributeError "Unknown Platform: single_plane_ophys") ∧
    parse_modality_string "behavior_videos" = .ok .BEHAVIOR_VIDEOS :=
  ⟨rfl, rfl, rfl⟩

/-- Claim C8 (confirmed): `map_bucket` sends any string containing "open"
to OPEN, else any string containing "scratch" to SCRATCH, keeps a canonical
bucket value, and maps everything else (a missing value included) to
PRIVATE; it is a total function, so it never raises. -/
theorem c8_map_bucket_rules :
    (∀ s : String, strContains s "open" = true →
      map_bucket (some (.ofStr s)) = .OPEN) ∧
    (∀ s : String, strContains s "open" = false →
      strContains s "scratch" = true →
      map_bucket (some (.ofStr s)) = .SCRATCH) ∧
    (∀ s : String, strContains s "open" = false →
      strContains s "scratch" = false →
      map_bucket (some (.ofStr s)) = .PRIVATE) ∧
    (∀ b : BucketType, map_bucket (some (.ofBucket b)) = b) ∧
    map_bucket (some (.ofStr "some-open-bucket")) = .OPEN ∧
    map_bucket (some (.ofStr "scratch-area")) = .SCRATCH ∧
    map_bucket (some (.ofStr "anything-else")) = .PRIVATE ∧
    map_bucket (some (.ofBucket .PRIVATE)) = .PRIVATE ∧
    map_bucket none = .PRIVATE := by
  refine ⟨?_, ?_, ?_, ?_, rfl, rfl, rfl, rfl, rfl⟩
  · intro s h
    simp [map_bucket, BucketInput.pyStr, BucketType.value, h]
  · intro s h1 h2
    simp [map_bucket, BucketInput.pyStr, BucketType.value, h1, h2]
  · intro s h1 h2
    simp [map_bucket, BucketInput.pyStr, BucketType.value, h1, h2]
  · intro b
    cases b <;> rfl

/-- Claim C10 (code bug): a `TriggerConfigModel` constructed without
`results_suffix` carries the tuple default `(Field(default="processed"),)`
— the trailing comma in the source makes the assigned class attribute a
one-element tuple, so pydantic never reads the `Field`'s declared
"processed" default — and not the string "processed". -/
theorem c10_results_suffix_default_is_tuple :
    validate_trigger_config tC10 = .ok tC10 ∧
    tC10.results_suffix = PyOptStr.fieldInfoTuple ∧
    PyOptStr.fieldInfoTuple ≠ PyOptStr.strV "processed" :=
  ⟨rfl, rfl, by decide⟩

/-! Decomposition lemmas for the job construction pipeline. -/

theorem lem_mk_decomp (raw : RawJobConfigs) (job : BasicUploadJobConfigs)
    (h : mkBasicUploadJobConfigs raw = .ok job) :
    ∃ job0 job1, validateJobFields raw = .ok job0 ∧
      set_trigger_capsule_configs job0 = .ok job1 ∧
      job = { job1 with metadata_configs := some (fill_in_metadata_configs job1 raw.metadata_configs) } := by
  unfold mkBasicUploadJobConfigs at h
  cases hv : validateJobFields raw with
  | error e => rw [hv] at h; simp at h
  | ok job0 =>
    rw [hv] at h
    dsimp only at h
    cases hs : set_trigger_capsule_configs job0 with
    | error e => rw [hs] at h; simp at h
    | ok job1 =>
      rw [hs] at h
      dsimp only at h
      injection h with h2
      exact ⟨job0, job1, rfl, hs, h2.symm⟩

theorem lem_set_trigger_decomp (job0 job1 : BasicUploadJobConfigs)
    (h : set_trigger_capsule_configs job0 = .ok job1) :
    ∃ base,
      (match job0.trigger_capsule_configs with
       | none => validate_trigger_config (freshTrigger
           (get_job_type job0.platform job0.process_capsule_id)
           job0.process_capsule_id job0.input_data_mount) = .ok base
       | some t => t = base) ∧
      job1 = { job0 with trigger_capsule_configs := some (overrideTrigger job0 base) } := by
  unfold set_trigger_capsule_configs at h
  cases ht : job0.trigger_capsule_configs with
  | none =>
    rw [ht] at h
    cases hv : validate_trigger_config (freshTrigger
        (get_job_type job0.platform job0.process_capsule_id)
        job0.process_capsule_id job0.input_data_mount) with
    | error e => rw [hv] at h; simp at h
    | ok base =>
      rw [hv] at h
      dsimp only at h
      injection h with h2
      exact ⟨base, by exact rfl, h2.symm⟩
  | some t =>
    rw [ht] at h
    dsimp only at h
    injection h with h2
    exact ⟨t, by exact rfl, h2.symm⟩

theorem lem_validate_fields_decomp (raw : RawJobConfigs)
    (job0 : BasicUploadJobConfigs) (h : validateJobFields raw = .ok job0) :
    ∃ pf dt mods tcc,
      job0 = { user_email := raw.user_email,
               email_notification_types := raw.email_notification_types,
               project_name := raw.project_name,
               input_data_mount := raw.input_data_mount,
               process_capsule_id := raw.process_capsule_id,
               s3_bucket := map_bucket raw.s3_bucket,
               platform := pf, modalities := mods,
               subject_id := raw.subject_id, acq_datetime := dt,
               metadata_dir := raw.metadata_dir,
               metadata_dir_force := raw.metadata_dir_force,
               force_cloud_sync := raw.force_cloud_sync,
               metadata_configs := none,
               trigger_capsule_configs := tcc } ∧
      (match raw.trigger_capsule_configs with
       | none => tcc = none
       | some t => ∃ vt, validate_trigger_config t = .ok vt ∧
           tcc = some vt) := by
  unfold validateJobFields at h
  cases hp : (match raw.platform with
              | .str s => parse_platform_string s
              | .platform p => Except.ok p) with
  | error e => rw [hp] at h; simp at h
  | ok pf =>
    rw [hp] at h
    dsimp only at h
    cases hd : (match raw.acq_datetime with
                | .str s => parse_datetime s
                | .value d => Except.ok d) with
    | error e => rw [hd] at h; simp at h
    | ok dt =>
      rw [hd] at h
      dsimp only at h
      cases hm : raw.modalities.mapM mkModalityConfigs with
      | error e => rw [hm] at h; simp at h
      | ok mods =>
        rw [hm] at h
        dsimp only at h
        by_cases hlen : mods.length < 1
        · rw [if_pos hlen] at h; simp at h
        · rw [if_neg hlen] at h
          cases htc : (match raw.trigger_capsule_configs with
                       | none => Except.ok Option.none
                       | some t => (validate_trigger_config t).map some) with
          | error e => rw [htc] at h; simp at h
          | ok tcc =>
            rw [htc] at h
            dsimp only at h
            injection h with h2
            refine ⟨pf, dt, mods, tcc, h2.symm, ?_⟩
            cases hr : raw.trigger_capsule_configs with
            | none =>
              rw [hr] at htc
              injection htc with h3
              exact h3.symm
            | some t =>
              rw [hr] at htc
              dsimp only at htc
              cases hvt : validate_trigger_config t with
              | error e => rw [hvt] at htc; simp [Except.map] at htc
              | ok vt =>
                rw [hvt] at htc
                injection htc with h3
                exact ⟨vt, hvt, h3.symm⟩

theorem lem_fresh_trigger (jt : ValidJobType) (pcid idm : Option String)
    (base : TriggerConfigModel)
    (h : validate_trigger_config (freshTrigger jt pcid idm) = .ok base) :
    base.mount = none ∧ base.job_type = jt := by
  have hval : validate_trigger_config (freshTrigger jt pcid idm)
      = (if (jt == ValidJobType.RUN_GENERIC_PIPELINE && pcid.isNone) = true
         then Except.error (PyError.valueError
           "process_capsule_id is required for job type run_generic_pipeline.")
         else Except.ok (freshTrigger jt pcid idm)) := rfl
  rw [hval] at h
  by_cases hc : (jt == ValidJobType.RUN_GENERIC_PIPELINE
      && pcid.isNone) = true
  · rw [if_pos hc] at h; simp at h
  · rw [if_neg hc] at h
    injection h with h2
    subst h2
    exact ⟨rfl, rfl⟩

/-- Claim C1 (confirmed): for every successfully constructed job, the
derived `s3_prefix` is exactly
`"{platform.abbreviation}_{subject_id}_{acq_datetime:%Y-%m-%d_%H-%M-%S}"`. -/
theorem c1_s3_prefix_formula (raw : RawJobConfigs)
    (job : BasicUploadJobConfigs)
    (h : mkBasicUploadJobConfigs raw = .ok job) :
    s3Prefix job = job.platform.abbreviation ++ "_" ++ job.subject_id
      ++ "_" ++ (pad4 job.acq_datetime.year ++ "-"
        ++ pad2 job.acq_datetime.month ++ "-" ++ pad2 job.acq_datetime.day
        ++ "_" ++ pad2 job.acq_datetime.hour ++ "-"
        ++ pad2 job.acq_datetime.minute ++ "-"
        ++ pad2 job.acq_datetime.second) := by
  unfold s3Prefix build_data_name datetime_to_name_string
  simp only [String.append_assoc]

/-- Claim C1 witness: the end-to-end BEHAVIOR scenario yields
`behavior_123456_2020-10-13_13-10-10`. -/
theorem c1_s3_prefix_formula_witness :
    (s3Prefix jobC1 = jobC1.platform.abbreviation ++ "_" ++ jobC1.subject_id
      ++ "_" ++ (pad4 jobC1.acq_datetime.year ++ "-"
        ++ pad2 jobC1.acq_datetime.month ++ "-" ++ pad2 jobC1.acq_datetime.day
        ++ "_" ++ pad2 jobC1.acq_datetime.hour ++ "-"
        ++ pad2 jobC1.acq_datetime.minute ++ "-"
        ++ pad2 jobC1.acq_datetime.second)) ∧
    mkBasicUploadJobConfigs rawC1 = .ok jobC1 ∧
    s3Prefix jobC1 = "behavior_123456_2020-10-13_13-10-10" :=
  ⟨c1_s3_prefix_formula rawC1 jobC1 rfl, rfl, rfl⟩

/-- Claim C2 (confirmed): in every successfully constructed job — a
user-supplied trigger config included — the resulting trigger config's
`bucket` is the job's bucket value, `prefix` and `asset_name` are the job's
`s3_prefix`, `modalities` is the job's modality list in order, and `mount`
is the `s3_prefix` only when still unset on the (validated) user-supplied
config; a user-supplied mount is kept. -/
theorem c2_trigger_overrides (raw : RawJobConfigs)
    (job : BasicUploadJobConfigs)
    (h : mkBasicUploadJobConfigs raw = .ok job) :
    ∃ tc, job.trigger_capsule_configs = some tc ∧
      tc.bucket = some job.s3_bucket.value ∧
      tc.prefix_ = some (s3Prefix job) ∧
      tc.asset_name = some (s3Prefix job) ∧
      tc.modalities = some (job.modalities.map ModalityConfigs.modality) ∧
      (match raw.trigger_capsule_configs with
       | none => tc.mount = some (s3Prefix job)
       | some t => ∃ vt, validate_trigger_config t = .ok vt ∧
           tc.mount = (if vt.mount.isNone then some (s3Prefix job)
                       else vt.mount)) := by
  obtain ⟨job0, job1, hv, hs, hjob⟩ := lem_mk_decomp raw job h
  obtain ⟨base, hbase, hjob1⟩ := lem_set_trigger_decomp job0 job1 hs
  obtain ⟨pf, dt, mods, tcc, hjob0, htcc⟩ :=
    lem_validate_fields_decomp raw job0 hv
  subst hjob
  subst hjob1
  refine ⟨overrideTrigger job0 base, rfl, rfl, rfl, rfl, rfl, ?_⟩
  cases hr : raw.trigger_capsule_configs with
  | none =>
    rw [hr] at htcc
    have hb0 : job0.trigger_capsule_configs = none := by
      rw [hjob0]; exact htcc
    rw [hb0] at hbase
    have hfresh := lem_fresh_trigger _ _ _ _ hbase
    show (overrideTrigger job0 base).mount = _
    unfold overrideTrigger
    rw [hfresh.1]
    rfl
  | some t =>
    rw [hr] at htcc
    obtain ⟨vt, hvt, htcc2⟩ := htcc
    have hb0 : job0.trigger_capsule_configs = some vt := by
      rw [hjob0]; exact htcc2
    rw [hb0] at hbase
    have hbase2 : vt = base := hbase
    subst hbase2
    exact ⟨vt, hvt, rfl⟩

/-- Claim C2 witness: with a user trigger config carrying its own mount,
bucket/prefix/asset_name/modalities come from the job and the mount is
kept. -/
theorem c2_trigger_overrides_witness :
    ∃ tc, jobC2.trigger_capsule_configs = some tc ∧
      tc.bucket = some jobC2.s3_bucket.value ∧
      tc.prefix_ = some (s3Prefix jobC2) ∧
      tc.asset_name = some (s3Prefix jobC2) ∧
      tc.modalities = some (jobC2.modalities.map ModalityConfigs.modality) ∧
      (match rawC2.trigger_capsule_configs with
       | none => tc.mount = some (s3Prefix jobC2)
       | some t => ∃ vt, validate_trigger_config t = .ok vt ∧
           tc.mount = (if vt.mount.isNone then some (s3Prefix jobC2)
                       else vt.mount)) :=
  c2_trigger_overrides rawC2 jobC2 rfl

/-- Claim C3 (corrected): the platform table and the
`process_capsule_id → run_generic_pipeline` rule determine the trigger's
`job_type` only when the job was constructed without a user-supplied
trigger config; a user-supplied config keeps its own `job_type`. The fixed
table itself holds: ECEPHYS→ecephys, SMARTSPIM→smartspim,
SINGLE_PLANE_OPHYS→singleplane_ophys, MULTIPLANE_OPHYS→multiplane_ophys,
anything else→register_data, and any direct `process_capsule_id` forces
run_generic_pipeline. -/
theorem c3_job_type_table_amended (raw : RawJobConfigs)
    (job : BasicUploadJobConfigs)
    (h : mkBasicUploadJobConfigs raw = .ok job)
    (hnone : raw.trigger_capsule_configs = none) :
    (∃ tc, job.trigger_capsule_configs = some tc ∧
      tc.job_type = get_job_type job.platform job.process_capsule_id) ∧
    (∀ (p : Platform) (s : String),
      get_job_type p (some s) = .RUN_GENERIC_PIPELINE) ∧
    get_job_type .ECEPHYS none = .ECEPHYS ∧
    get_job_type .SMARTSPIM none = .SMARTSPIM ∧
    get_job_type .SINGLE_PLANE_OPHYS none = .SINGLEPLANE_OPHYS ∧
    get_job_type .MULTIPLANE_OPHYS none = .MULTIPLANE_OPHYS ∧
    (∀ p : Platform, p ≠ .ECEPHYS → p ≠ .SMARTSPIM →
      p ≠ .SINGLE_PLANE_OPHYS → p ≠ .MULTIPLANE_OPHYS →
      get_job_type p none = .REGISTER_DATA) := by
  refine ⟨?_, fun p s => rfl, rfl, rfl, rfl, rfl, ?_⟩
  · obtain ⟨job0, job1, hv, hs, hjob⟩ := lem_mk_decomp raw job h
    obtain ⟨base, hbase, hjob1⟩ := lem_set_trigger_decomp job0 job1 hs
    obtain ⟨pf, dt, mods, tcc, hjob0, htcc⟩ :=
      lem_validate_fields_decomp raw job0 hv
    subst hjob
    subst hjob1
    rw [hnone] at htcc
    have hb0 : job0.trigger_capsule_configs = none := by
      rw [hjob0]; exact htcc
    rw [hb0] at hbase
    have hfresh := lem_fresh_trigger _ _ _ _ hbase
    exact ⟨overrideTrigger job0 base, rfl, hfresh.2⟩
  · intro p h1 h2 h3 h4
    cases p <;> simp_all [get_job_type]

/-- Claim C3 witness: the BEHAVIOR scenario has no user trigger config and
no `process_capsule_id`, so its trigger job type follows the table. -/
theorem c3_job_type_table_amended_witness :
    (∃ tc, jobC1.trigger_capsule_configs = some tc ∧
      tc.job_type = get_job_type jobC1.platform jobC1.process_capsule_id) ∧
    (∀ (p : Platform) (s : String),
      get_job_type p (some s) = .RUN_GENERIC_PIPELINE) ∧
    get_job_type .ECEPHYS none = .ECEPHYS ∧
    get_job_type .SMARTSPIM none = .SMARTSPIM ∧
    get_job_type .SINGLE_PLANE_OPHYS none = .SINGLEPLANE_OPHYS ∧
    get_job_type .MULTIPLANE_OPHYS none = .MULTIPLANE_OPHYS ∧
    (∀ p : Platform, p ≠ .ECEPHYS → p ≠ .SMARTSPIM →
      p ≠ .SINGLE_PLANE_OPHYS → p ≠ .MULTIPLANE_OPHYS →
      get_job_type p none = .REGISTER_DATA) :=
  c3_job_type_table_amended rawC1 jobC1 rfl rfl

/-- Claim C3 counterexample: a job on platform ECEPHYS with no
`process_capsule_id` but a user trigger config of job type `test`
constructs successfully with trigger job type `test`, not the table's
`ecephys`. -/
theorem c3_user_job_type_counterexample :
    (mkBasicUploadJobConfigs rawC3).map (fun j =>
        (j.platform, j.process_capsule_id,
          j.trigger_capsule_configs.map TriggerConfigModel.job_type))
      = .ok (.ECEPHYS, none, some .TEST) ∧
    get_job_type .ECEPHYS none = .ECEPHYS ∧
    ValidJobType.TEST ≠ ValidJobType.ECEPHYS :=
  ⟨rfl, rfl, by decide⟩

/-- Claim C4 (confirmed): in every successfully constructed job — whatever
the user supplied inside `metadata_configs` — the resulting metadata
settings carry `directory_to_write_to = "stage"`, subject and procedures
settings built from the job's `subject_id`, a raw-data-description built
from the `s3_prefix`, project name and modality list, and
`metadata_dir_force` from the job's flag: the computed defaults overwrite
any same-named user-supplied values. -/
theorem c4_metadata_defaults_win (raw : RawJobConfigs)
    (job : BasicUploadJobConfigs)
    (h : mkBasicUploadJobConfigs raw = .ok job) :
    ∃ mc, job.metadata_configs = some mc ∧
      mc.directory_to_write_to = some "stage" ∧
      mc.subject_settings = some { subject_id := job.subject_id } ∧
      mc.procedures_settings = some { subject_id := job.subject_id } ∧
      mc.raw_data_description_settings = some
        { name := s3Prefix job, project_name := job.project_name,
          modality := job.modalities.map ModalityConfigs.modality } ∧
      mc.metadata_dir_force = some job.metadata_dir_force := by
  obtain ⟨job0, job1, hv, hs, hjob⟩ := lem_mk_decomp raw job h
  subst hjob
  exact ⟨_, rfl, rfl, rfl, rfl, rfl, rfl⟩

/-- Claim C4 witness: with user metadata supplying conflicting values for
the derived keys, the constructed job still carries the computed
defaults (and only the opaque session blob survives). -/
theorem c4_metadata_defaults_win_witness :
    (∃ mc, jobC4.metadata_configs = some mc ∧
      mc.directory_to_write_to = some "stage" ∧
      mc.subject_settings = some { subject_id := jobC4.subject_id } ∧
      mc.procedures_settings = some { subject_id := jobC4.subject_id } ∧
      mc.raw_data_description_settings = some
        { name := s3Prefix jobC4, project_name := jobC4.project_name,
          modality := jobC4.modalities.map ModalityConfigs.modality } ∧
      mc.metadata_dir_force = some jobC4.metadata_dir_force) ∧
    userMetaC4.directory_to_write_to = some "elsewhere" ∧
    userMetaC4.subject_settings = some { subject_id := "999999" } ∧
    userMetaC4.metadata_dir_force = some true ∧
    mkBasicUploadJobConfigs rawC4 = .ok jobC4 ∧
    jobC4.metadata_configs = some metaC4 :=
  ⟨c4_metadata_defaults_win rawC4 jobC4 rfl, rfl, rfl, rfl, rfl, rfl⟩

theorem lem_propagateJob_user_email (ue : Option String)
    (ent : List EmailNotificationType) (x : BasicUploadJobConfigs) :
    (propagateJob ue ent x).user_email
      = (if x.user_email = none then ue else x.user_email) := by
  unfold propagateJob
  cases hue : x.user_email with
  | none =>
    cases hg : ue with
    | none =>
      cases hent : x.email_notification_types <;> simp [hue, hg, hent]
    | some g =>
      cases hent : x.email_notification_types <;> simp [hue, hg, hent]
  | some u =>
    cases hent : x.email_notification_types <;> simp [hue, hent]

theorem lem_propagateJob_ent (ue : Option String)
    (ent : List EmailNotificationType) (x : BasicUploadJobConfigs) :
    (propagateJob ue ent x).email_notification_types
      = some (x.email_notification_types.getD ent) := by
  unfold propagateJob
  by_cases hc1 : (ue.isSome && x.user_email.isNone) = true
  · cases hent : x.email_notification_types <;> simp [hc1, hent]
  · cases hent : x.email_notification_types <;> simp [hc1, hent]

/-- Claim C9 (confirmed): after a `SubmitJobRequest` is constructed, every
job carries a non-null `email_notification_types` (a job lacking one
inherits the batch's set, which is always present — `{fail}` by default),
and each job's `user_email` is its own explicit value or, when it had none,
the batch's value; the propagation is batch-to-job only, leaving the input
jobs' own values the single other source. -/
theorem c9_email_propagation (ue : Option String)
    (ent : List EmailNotificationType)
    (jobs : List BasicUploadJobConfigs) (req : SubmitJobRequest)
    (h : mkSubmitJobRequest ue ent jobs = .ok req) :
    req.upload_jobs.length = jobs.length ∧
    (∀ j ∈ req.upload_jobs, j.email_notification_types ≠ none) ∧
    (∀ (i : Nat) (hi : i < jobs.length)
        (hri : i < req.upload_jobs.length),
      (req.upload_jobs.get ⟨i, hri⟩).user_email
        = (if (jobs.get ⟨i, hi⟩).user_email = none then ue
           else (jobs.get ⟨i, hi⟩).user_email) ∧
      (req.upload_jobs.get ⟨i, hri⟩).email_notification_types
        = some (((jobs.get ⟨i, hi⟩).email_notification_types).getD ent)) := by
  unfold mkSubmitJobRequest at h
  by_cases h1 : jobs.length < 1
  · rw [if_pos h1] at h; simp at h
  · rw [if_neg h1] at h
    by_cases h2 : 1000 < jobs.length
    · rw [if_pos h2] at h; simp at h
    · rw [if_neg h2] at h
      injection h with h3
      subst h3
      unfold propagate_email_settings
      refine ⟨List.length_map _ _, ?_, ?_⟩
      · intro j hj
        obtain ⟨x, hx, rfl⟩ := List.mem_map.mp hj
        rw [lem_propagateJob_ent]
        simp
      · intro i hi hri
        simp only [List.get_eq_getElem, List.getElem_map]
        exact ⟨lem_propagateJob_user_email ue ent _,
               lem_propagateJob_ent ue ent _⟩

/-- Claim C9 witness: a batch with `user_email` and the default `{fail}`
set propagates both onto a job that has neither. -/
theorem c9_email_propagation_witness :
    reqC9.upload_jobs.length = [jobC9].length ∧
    (∀ j ∈ reqC9.upload_jobs, j.email_notification_types ≠ none) ∧
    (∀ (i : Nat) (hi : i < [jobC9].length)
        (hri : i < reqC9.upload_jobs.length),
      (reqC9.upload_jobs.get ⟨i, hri⟩).user_email
        = (if ([jobC9].get ⟨i, hi⟩).user_email = none then some "a@x.com"
           else ([jobC9].get ⟨i, hi⟩).user_email) ∧
      (reqC9.upload_jobs.get ⟨i, hri⟩).email_notification_types
        = some ((([jobC9].get ⟨i, hi⟩).email_notification_types).getD
            defaultEmailNotificationTypes)) :=
  c9_email_propagation (some "a@x.com") defaultEmailNotificationTypes
    [jobC9] reqC9 rfl

end AindDataTransferModels
